import Mathlib

/-!
Shallow embedding of `src/scripts/batch_render_cameras.py`, a Blender batch
rendering script.  Pure Python helpers become Lean functions; the mutations of
`bpy.context.scene` and of the class-level `Options` fields are modelled by
explicit state passing; each call to `bpy.ops.render.render(animation=True)`
is recorded as a `RenderCall` carrying the scene state visible to the host at
that moment.  CPython primitives used by the script (`int(str)`, `str.split`,
list indexing, truthiness of `None`/`int`) are modelled on the inputs the
script can produce: ASCII decimal strings and in-memory lists.
-/

set_option autoImplicit false

namespace BatchRender

/-- ASCII whitespace stripped by CPython `int(str)` before conversion. -/
def isPySpace (c : Char) : Bool :=
  c = ' ' || c = '\t' || c = '\n' || c = '\r' || c = '\x0b' || c = '\x0c'

/-- No two consecutive underscores (CPython digit-group separator rule). -/
def noDoubleUnderscore : List Char → Bool
  | [] => true
  | [_] => true
  | a :: b :: rest => !(a = '_' && b = '_') && noDoubleUnderscore (b :: rest)

/-- A valid CPython decimal digit group: nonempty, made of ASCII digits with
optional single underscores strictly between digits. -/
def validDigitGroup (cs : List Char) : Bool :=
  (!cs.isEmpty)
    && cs.head?.all Char.isDigit
    && cs.getLast?.all Char.isDigit
    && cs.all (fun c => c.isDigit || c = '_')
    && noDoubleUnderscore cs

/-- Numeric value of a digit list (underscores already removed). -/
def digitsToNat (cs : List Char) : Nat :=
  cs.foldl (fun acc c => 10 * acc + (c.toNat - 48)) 0

/-- Model of CPython `int(s)` on ASCII decimal strings: surrounding
whitespace is stripped, one optional sign, digits with optional underscore
group separators; everything else raises `ValueError`, modelled as `none`. -/
def python_int (s : String) : Option Int :=
  let t := ((s.toList.dropWhile isPySpace).reverse.dropWhile isPySpace).reverse
  match t with
  | [] => none
  | c :: cs =>
    let sgn : Int := if c = '-' then -1 else 1
    let body : List Char := if c = '-' || c = '+' then cs else c :: cs
    if validDigitGroup body then
      some (sgn * Int.ofNat (digitsToNat (body.filter fun d => d != '_')))
    else none

/-- Python `str.split(sep)` for a one-character separator, on the character
list: keeps empty groups, `"".split(sep) == [""]`. -/
def splitOnChar (sep : Char) : List Char → List (List Char)
  | [] => [[]]
  | c :: rest =>
    match splitOnChar sep rest with
    | [] => [[c]]
    | g :: gs => if c = sep then [] :: g :: gs else (c :: g) :: gs

/-- Python `s.split(sep)` for a one-character separator, on strings. -/
def pySplit (s : String) (sep : Char) : List String :=
  (splitOnChar sep s.toList).map fun g => String.mk g

/-- Truthiness of an optional integer, as Python evaluates
`if x:` for `x` either `None` or an `int`: `None` and `0` are falsy. -/
def pyTruthy : Option Int → Bool
  | none => false
  | some v => v != 0

/-- Python list indexing `xs[i]`: negative indices count from the end,
anything out of range raises `IndexError`, modelled as `none`. -/
def pyGet {α : Type} (xs : List α) (i : Int) : Option α :=
  let j : Int := if i < 0 then (xs.length : Int) + i else i
  if 0 ≤ j then xs[j.toNat]? else none

/-- The class-level fields of the script's `Options` class, with their
initial (class-body) values.  `main` assigns `Options.persistent_data`
(lowercase), which in Python creates a new class attribute distinct from
`Options.PersistentData`; both are therefore modelled as separate fields. -/
structure Options where
  FrameStart : Option Int := none
  FrameEnd : Option Int := none
  AllFrames : Bool := true
  OverwriteSet : Bool := false
  Overwrite : Bool := true
  PersistentData : Bool := false
  persistent_data : Bool := false
  deriving Repr, DecidableEq

/-- A camera object handle: only its `name` attribute is read. -/
structure Camera where
  name : String
  deriving Repr, DecidableEq

/-- The scene's render settings touched by the script. -/
structure RenderSettings where
  filepath : String
  use_overwrite : Bool
  use_persistent_data : Bool
  use_file_extension : Bool
  deriving Repr, DecidableEq

/-- The pieces of `bpy.context.scene` the script reads or writes.
`camera` holds the active camera's name (`none` when unset). -/
structure Scene where
  camera : Option String
  frame_start : Int
  frame_end : Int
  render : RenderSettings
  deriving Repr, DecidableEq

/-- Host state given to one invocation: the scene, the camera objects in the
order `bpy.ops.object.select_by_type(type="CAMERA")` enumerates them, the
path of the loaded blend file (`bpy.data.filepath`) and the host version
tuple (`bpy.app.version`). -/
structure Host where
  scene : Scene
  cameras : List Camera
  blend_filepath : String
  version : Nat × Nat × Nat
  deriving Repr, DecidableEq

/-- One `bpy.ops.render.render(animation=True)` call: the camera rendered
and the scene state the host sees at the call. -/
structure RenderCall where
  camera : String
  scene : Scene
  deriving Repr, DecidableEq

/-- `get_blend_name_base`: `bpy.path.basename(bpy.data.filepath).split('.')[0]`.
`bpy.path.basename` is `os.path.basename` after dropping a leading `"//"`;
modelled here for POSIX-style separators.  `split('.')[0]` keeps the text
before the first dot. -/
def get_blend_name_base (blend_filepath : String) : String :=
  let p := blend_filepath.toList
  let p := if ['/', '/'].isPrefixOf p then p.drop 2 else p
  let blend_file_name := (splitOnChar '/' p).getLastD []
  String.mk ((splitOnChar '.' blend_file_name).headD [])

/-- `is_blender_293`: the version gate as written in the source,
`bv[0] >= 2 and bv[1] >= 3`. -/
def is_blender_293 (bv : Nat × Nat × Nat) : Bool :=
  decide (2 ≤ bv.1) && decide (3 ≤ bv.2.1)

/-- `render_with_camera`: sets the active camera, conditionally writes frame
bounds / overwrite / persistent-data, redirects the output path and renders.
Returns the scene after the call together with the recorded render call. -/
def render_with_camera (opts : Options) (blend_filepath : String) (cam : Camera)
    (scene : Scene) : Scene × RenderCall :=
  let scene := { scene with camera := some cam.name }
  let scene :=
    if !opts.AllFrames then
      let scene :=
        if pyTruthy opts.FrameStart then
          { scene with frame_start := opts.FrameStart.getD 0 }
        else scene
      if pyTruthy opts.FrameEnd then
        { scene with frame_end := opts.FrameEnd.getD 0 }
      else scene
    else scene
  let render := scene.render
  let render :=
    if opts.OverwriteSet then { render with use_overwrite := opts.Overwrite } else render
  let render :=
    if opts.PersistentData then { render with use_persistent_data := true } else render
  let filepath := render.filepath
  let render_filename := (pySplit filepath '\\').getLastD ""
  let render_folder :=
    "//" ++ get_blend_name_base blend_filepath ++ "_" ++ cam.name ++ "\\" ++ render_filename
  let render := { render with use_file_extension := true }
  let render := { render with filepath := render_folder }
  let scene := { scene with render := render }
  (scene, { camera := cam.name, scene := scene })

/-- The render loop of `do_render`: one `render_with_camera` per resolved
camera, threading the mutated scene. -/
def run_renders (opts : Options) (blend_filepath : String) :
    Scene → List Camera → Scene × List RenderCall
  | scene, [] => (scene, [])
  | scene, cam :: rest =>
    let sc := render_with_camera opts blend_filepath cam scene
    let tail := run_renders opts blend_filepath sc.1 rest
    (tail.1, sc.2 :: tail.2)

/-- Outcome of `do_render`: final scene, the render calls issued, and the
uncaught exception if one was raised. -/
structure DoRenderResult where
  scene : Scene
  renders : List RenderCall
  fatal : Option String
  deriving Repr, DecidableEq

/-- The comprehension `[cams[i] for i in camera_index_list]`: every index is
looked up before any rendering happens; the first out-of-range index raises
`IndexError`, modelled as `none` for the whole list. -/
def resolve_indices (cams : List Camera) : List Int → Option (List Camera)
  | [] => some []
  | i :: rest => do
    let c ← pyGet cams i
    let cs ← resolve_indices cams rest
    pure (c :: cs)

/-- `do_render`: resolves every requested index against the enumerated
cameras first (`active_cams = [cams[i] for i in camera_index_list]`), then
renders each resolved camera.  An out-of-range index raises `IndexError`
during the comprehension, before any render call. -/
def do_render (opts : Options) (blend_filepath : String) (cams : List Camera)
    (scene : Scene) (camera_index_list : List Int) : DoRenderResult :=
  match resolve_indices cams camera_index_list with
  | none =>
    { scene := scene, renders := [], fatal := some "IndexError: list index out of range" }
  | some active_cams =>
    let r := run_renders opts blend_filepath scene active_cams
    { scene := r.1, renders := r.2, fatal := none }

/-- The argparse `Namespace` produced by the script's parser declaration.
`-o` (`store_true`) and `-n` (`store_false`) both use `default=SUPPRESS`, so
the script only ever tests attribute *presence*; each is modelled as a
`Bool` recording whether the flag was supplied.  `-p` is `store_true` with
the implicit `False` default. -/
structure Args where
  camera_list_1 : Option String := none
  frame_start : Option Int := none
  frame_end : Option Int := none
  overwrite : Bool := false
  no_overwrite : Bool := false
  persistent_data : Bool := false
  deriving Repr, DecidableEq

/-- Scanner loop modelling `argparse` on the script's declared options, for
flag and value passed as separate tokens.  `-s`/`-e` values go through
`int()` (a failure is an argparse error exiting the process); `-o`/`-n`
belong to a mutually exclusive group, so seeing the second of the pair is an
error; an unrecognized token is an error.  The automatic `-h`/`--help`
option is not modelled (no claim involves it). -/
def parse_args_go (a : Args) : List String → Except String Args
  | [] => .ok a
  | t :: rest =>
    if t = "-c" || t = "--camera-list" then
      match rest with
      | [] => .error "argument -c/--camera-list: expected one argument"
      | v :: rest2 => parse_args_go { a with camera_list_1 := some v } rest2
    else if t = "-s" || t = "--frame-start" then
      match rest with
      | [] => .error "argument -s/--frame-start: expected one argument"
      | v :: rest2 =>
        match python_int v with
        | none => .error ("argument -s/--frame-start: invalid int value: " ++ v)
        | some k => parse_args_go { a with frame_start := some k } rest2
    else if t = "-e" || t = "--frame-end" then
      match rest with
      | [] => .error "argument -e/--frame-end: expected one argument"
      | v :: rest2 =>
        match python_int v with
        | none => .error ("argument -e/--frame-end: invalid int value: " ++ v)
        | some k => parse_args_go { a with frame_end := some k } rest2
    else if t = "-o" || t = "--overwrite" then
      if a.no_overwrite then
        .error "argument -o/--overwrite: not allowed with argument -n/--no-overwrite"
      else parse_args_go { a with overwrite := true } rest
    else if t = "-n" || t = "--no-overwrite" then
      if a.overwrite then
        .error "argument -n/--no-overwrite: not allowed with argument -o/--overwrite"
      else parse_args_go { a with no_overwrite := true } rest
    else if t = "-p" || t = "--persistent-data" then
      parse_args_go { a with persistent_data := true } rest
    else .error ("unrecognized arguments: " ++ t)

/-- `parser.parse_args(argv)` for the argument list after `"--"`. -/
def parse_args (argv : List String) : Except String Args :=
  parse_args_go {} argv

/-- The camera-list branch of `main`: split on `','` (a single token when no
comma is present) and convert every token with `int()`; `none` models the
caught `ValueError`. -/
def parse_camera_tokens (s : String) : Option (List Int) :=
  let cl := if s.toList.contains ',' then pySplit s ',' else [s]
  cl.mapM python_int

/-- The index normalization of `main`:
`[val-1 if val > 0 else 0 for val in cl]` followed by `list(set(...))`.
CPython's set iteration order is unspecified; `List.dedup` realizes one
duplicate-free order, and every claim about the result is stated on the
underlying `Finset`. -/
def normalize_camera_list (cl : List Int) : List Int :=
  (cl.map fun val => if val > 0 then val - 1 else 0).dedup

/-- The `Options` mutations of `main` for `-s`/`-e`, with Python truthiness:
`if args.frame_start or args.frame_end:` then each bound is written only
`if args.frame_start:` (resp. `frame_end`) is truthy. -/
def resolve_frame_options (frame_start frame_end : Option Int) (o : Options) : Options :=
  if pyTruthy frame_start || pyTruthy frame_end then
    let o := { o with AllFrames := false }
    let o := if pyTruthy frame_start then { o with FrameStart := frame_start } else o
    if pyTruthy frame_end then { o with FrameEnd := frame_end } else o
  else o

/-- The `Options` mutations of `main` for the overwrite group:
`if "no_overwrite" not in args and "overwrite" not in args` leaves
`OverwriteSet` false, otherwise sets it and `Overwrite = "overwrite" in args`. -/
def resolve_overwrite (overwrite no_overwrite : Bool) (o : Options) : Options :=
  if !no_overwrite && !overwrite then { o with OverwriteSet := false }
  else { o with OverwriteSet := true, Overwrite := overwrite }

/-- The `Options` mutation of `main` for `-p`: the source assigns
`Options.persistent_data = args.persistent_data` — the lowercase name, a new
class attribute — leaving `Options.PersistentData` (the field every later
read uses) at its class-body value. -/
def resolve_persistent (pd : Bool) (version : Nat × Nat × Nat) (o : Options) : Options :=
  if pd && is_blender_293 version then { o with persistent_data := pd } else o

/-- Observable outcome of one `main` invocation.  `printedHelp` — the full
help text was printed; `errorMsg` — an error message printed before a clean
`return`; `parseFailed` — argparse rejected `argv` (`SystemExit` before any
script logic); `fatal` — an uncaught exception; `scene` — final scene state;
`renders` — the render calls issued, in order. -/
structure MainOutcome where
  printedHelp : Bool
  errorMsg : Option String
  parseFailed : Bool
  fatal : Option String
  scene : Scene
  renders : List RenderCall
  deriving Repr, DecidableEq

/-- The body of `main` after `parse_args` succeeded on a nonempty `argv`:
option resolution in source order, then the mandatory camera list, token
conversion, normalization and `do_render`. -/
def main_with_args (args : Args) (host : Host) : MainOutcome :=
  let opts : Options := {}
  let opts := resolve_persistent args.persistent_data host.version opts
  let opts := resolve_frame_options args.frame_start args.frame_end opts
  let opts := resolve_overwrite args.overwrite args.no_overwrite opts
  match args.camera_list_1 with
  | none =>
    { printedHelp := true
      errorMsg := some "Error: --camera-list=\"1,2,5\" argument not given, aborting."
      parseFailed := false, fatal := none, scene := host.scene, renders := [] }
  | some s =>
    if s = "" then
      { printedHelp := true
        errorMsg := some "Error: --camera-list=\"1,2,5\" argument not given, aborting."
        parseFailed := false, fatal := none, scene := host.scene, renders := [] }
    else
      match parse_camera_tokens s with
      | none =>
        { printedHelp := true
          errorMsg :=
            some "Error: --camera-list requires a comma-separated list of integers (no spaces)"
          parseFailed := false, fatal := none, scene := host.scene, renders := [] }
      | some cl =>
        let camera_list_0 := normalize_camera_list cl
        let r := do_render opts host.blend_filepath host.cameras host.scene camera_list_0
        { printedHelp := false, errorMsg := none, parseFailed := false
          fatal := r.fatal, scene := r.scene, renders := r.renders }

/-- `main` on the effective argument list (the tokens after `"--"`):
`parse_args` runs first (argparse exits the process on a parse error), then
the empty-`argv` help path, then `main_with_args`. -/
def pyMain (argv : List String) (host : Host) : MainOutcome :=
  match parse_args argv with
  | .error e =>
    { printedHelp := false, errorMsg := some e, parseFailed := true, fatal := none
      scene := host.scene, renders := [] }
  | .ok args =>
    if argv.isEmpty then
      { printedHelp := true, errorMsg := none, parseFailed := false, fatal := none
        scene := host.scene, renders := [] }
    else main_with_args args host

/-! ### Shared example data and helper lemmas -/

/-- A concrete scene used to instantiate the theorems: nontrivial stored
frame range, overwrite off, persistent data off, a Windows-style stored
render filepath. -/
def sampleScene : Scene :=
  { camera := none, frame_start := 5, frame_end := 9
    render := { filepath := "C:\\out\\frame_", use_overwrite := false
                use_persistent_data := false, use_file_extension := false } }

/-- A concrete host built over `sampleScene`. -/
def sampleHost (v : Nat × Nat × Nat) (cams : List Camera) : Host :=
  { scene := sampleScene, cameras := cams, blend_filepath := "//proj/Scene.blend"
    version := v }

/-- When `parse_args` succeeds on a nonempty `argv`, `pyMain` runs the body
`main_with_args`. -/
theorem pyMain_ok_of_ne_nil (argv : List String) (host : Host) (args : Args)
    (h : parse_args argv = .ok args) (hne : argv ≠ []) :
    pyMain argv host = main_with_args args host := by
  cases argv with
  | nil => exact absurd rfl hne
  | cons t rest => simp [pyMain, h, List.isEmpty]

/-- An out-of-range index in the comprehension makes the whole resolution
fail. -/
theorem resolve_indices_eq_none (cams : List Camera) (idxs : List Int) (i : Int)
    (hi : i ∈ idxs) (h : pyGet cams i = none) : resolve_indices cams idxs = none := by
  induction idxs with
  | nil => cases hi
  | cons j rest ih =>
    rcases List.mem_cons.mp hi with rfl | hmem
    · simp [resolve_indices, h]
    · cases hj : pyGet cams j <;> simp [resolve_indices, hj, ih hmem]

/-- `do_render` on a selection containing an out-of-range index: the
`IndexError` is raised while resolving camera handles, so the scene is
untouched and no render call at all is issued. -/
theorem do_render_out_of_range (opts : Options) (blend_filepath : String)
    (cams : List Camera) (scene : Scene) (idxs : List Int)
    (h : ∃ i ∈ idxs, pyGet cams i = none) :
    do_render opts blend_filepath cams scene idxs =
      { scene := scene, renders := [], fatal := some "IndexError: list index out of range" } := by
  obtain ⟨i, hi, hnone⟩ := h
  simp [do_render, resolve_indices_eq_none cams idxs i hi hnone]

/-- Closed form of the scene produced by `render_with_camera`. -/
theorem render_with_camera_eq (opts : Options) (blend_filepath : String)
    (cam : Camera) (scene : Scene) :
    render_with_camera opts blend_filepath cam scene =
      (let s : Scene :=
        { camera := some cam.name
          frame_start :=
            if !opts.AllFrames && pyTruthy opts.FrameStart then opts.FrameStart.getD 0
            else scene.frame_start
          frame_end :=
            if !opts.AllFrames && pyTruthy opts.FrameEnd then opts.FrameEnd.getD 0
            else scene.frame_end
          render :=
            { filepath :=
                "//" ++ get_blend_name_base blend_filepath ++ "_" ++ cam.name ++ "\\"
                  ++ (pySplit scene.render.filepath '\\').getLastD ""
              use_overwrite :=
                if opts.OverwriteSet then opts.Overwrite else scene.render.use_overwrite
              use_persistent_data :=
                if opts.PersistentData then true else scene.render.use_persistent_data
              use_file_extension := true } }
      (s, { camera := cam.name, scene := s })) := by
  unfold render_with_camera
  cases hA : opts.AllFrames <;> cases hS : pyTruthy opts.FrameStart <;>
    cases hE : pyTruthy opts.FrameEnd <;> cases hO : opts.OverwriteSet <;>
    cases hP : opts.PersistentData <;> simp [hA, hS, hE, hO, hP]

/-! ### Claim theorems -/

/-- C10: with an empty effective argument list, `main` prints the help text,
issues no render call, leaves the scene untouched, and terminates without
any error, parse failure or exception. -/
theorem empty_argv_prints_help_only (host : Host) :
    pyMain [] host =
      { printedHelp := true, errorMsg := none, parseFailed := false, fatal := none
        scene := host.scene, renders := [] } := rfl

/-- C2: for every token list that parsed as integers, the resolved selection
set is exactly the image of `fun k => if k > 0 then k - 1 else 0` over the
set of tokens (1-based `k ≥ 1` maps to `k-1`, non-positive `k` clamps to
`0`, duplicates collapse, order immaterial); and on the input `"1,2,2,4"`
the tokens are `[1, 2, 2, 4]` and the resolved set is `{0, 1, 3}`. -/
theorem camera_selection_resolved_set :
    (∀ cl : List Int,
      (normalize_camera_list cl).toFinset =
        cl.toFinset.image fun val => if val > 0 then val - 1 else 0)
    ∧ parse_camera_tokens "1,2,2,4" = some [1, 2, 2, 4]
    ∧ (normalize_camera_list [1, 2, 2, 4]).toFinset = ({0, 1, 3} : Finset Int) := by
  refine ⟨fun cl => ?_, by decide, by decide⟩
  ext x
  simp [normalize_camera_list, List.mem_dedup]

/-- C1: evaluation of the persistent-data path at the claim's own test
points.  The version gate `is_blender_293` tests `bv[1] >= 3`, so host
version `2.92` passes it (the claim requires minor `>= 93`) while `3.0`
fails it; and even on `2.93` an invocation with `-p` never enables the render
settings' persistent-data flag, because `main` assigns the new lowercase
class attribute `Options.persistent_data` while `render_with_camera` reads
`Options.PersistentData`: the rendered scene keeps `use_persistent_data`
at its stored value `false`. -/
theorem persistent_data_never_enabled_eval :
    is_blender_293 (2, 92, 0) = true
    ∧ is_blender_293 (3, 0, 0) = false
    ∧ (resolve_persistent true (2, 93, 0) {}).persistent_data = true
    ∧ (resolve_persistent true (2, 93, 0) {}).PersistentData = false
    ∧ ((pyMain ["-p", "-c", "1"] (sampleHost (2, 93, 0) [⟨"Cam"⟩])).renders.map fun rc =>
        rc.scene.render.use_persistent_data) = [false]
    ∧ (pyMain ["-p", "-c", "1"] (sampleHost (2, 93, 0) [⟨"Cam"⟩])).scene.render.use_persistent_data
        = false := by
  decide

/-- Modelled from the spec's words for claim C5: "the scene file's base name
(filename without extension or directory)" — drop the directory part, then
strip the final extension (the text from the last dot on). -/
def spec_scene_base_name (blend_filepath : String) : String :=
  let p := blend_filepath.toList
  let p := if ['/', '/'].isPrefixOf p then p.drop 2 else p
  let base := (splitOnChar '/' p).getLastD []
  let parts := splitOnChar '.' base
  if parts.length ≤ 1 then String.mk base
  else String.mk ((parts.dropLast.map fun g => g ++ ['.']).flatten.dropLast)

/-- Modelled from the spec's words for claim C5: "the trailing path segment
of the previously stored render filepath" — the text after the last path
separator, slash or backslash. -/
def spec_trailing_segment (filepath : String) : String :=
  let afterSlash := (splitOnChar '/' filepath.toList).getLastD []
  String.mk ((splitOnChar '\\' afterSlash).getLastD [])

/-- C5 counterexample: with the blend file `"A.B.blend"`, camera `"Cam"` and
stored render filepath `"renders/frame_"`, the script sets the output path
to `"//A_Cam\renders/frame_"`, but the claim's formula — base name without
extension (`"A.B"`), underscore, camera name, with the trailing path segment
(`"frame_"`) as filename — gives `"//A.B_Cam\frame_"`: `split('.')[0]` keeps
only the text before the first dot, and `split("\\")` does not treat `/` as
a separator. -/
theorem output_path_spec_counterexample :
    ((pyMain ["-c", "1"]
        { scene := { camera := none, frame_start := 5, frame_end := 9
                     render := { filepath := "renders/frame_", use_overwrite := false
                                 use_persistent_data := false, use_file_extension := false } }
          cameras := [⟨"Cam"⟩], blend_filepath := "A.B.blend"
          version := (2, 93, 0) }).renders.map fun rc => rc.scene.render.filepath)
      = ["//A_Cam\\renders/frame_"]
    ∧ "//" ++ spec_scene_base_name "A.B.blend" ++ "_" ++ "Cam" ++ "\\"
        ++ spec_trailing_segment "renders/frame_" = "//A.B_Cam\\frame_"
    ∧ ("//A_Cam\\renders/frame_" : String) ≠ "//A.B_Cam\\frame_" := by
  decide

/-- C5 amended: for every rendered camera the output path is set to
`"//" ++ B ++ "_" ++ <camera name> ++ "\" ++ F`, where `B` is the text of
the blend file's base name before its first dot (equal to the filename
without extension whenever that name has at most one dot) and `F` is the
trailing backslash-separated segment of the previously stored render
filepath; the file-extension-appending flag is forced on.  With scene base
name `"Scene"` and camera `"Cam.001"` the subfolder is `"Scene_Cam.001"`. -/
theorem output_path_amended :
    (∀ (opts : Options) (blend_filepath : String) (cam : Camera) (scene : Scene),
      (render_with_camera opts blend_filepath cam scene).1.render.filepath =
          "//" ++ get_blend_name_base blend_filepath ++ "_" ++ cam.name ++ "\\"
            ++ (pySplit scene.render.filepath '\\').getLastD ""
        ∧ (render_with_camera opts blend_filepath cam scene).1.render.use_file_extension = true
        ∧ (render_with_camera opts blend_filepath cam scene).2.scene =
            (render_with_camera opts blend_filepath cam scene).1)
    ∧ get_blend_name_base "//proj/Scene.blend" = "Scene"
    ∧ ((pyMain ["-c", "2"] (sampleHost (2, 93, 0) [⟨"Cam"⟩, ⟨"Cam.001"⟩])).renders.map fun rc =>
        rc.scene.render.filepath) = ["//Scene_Cam.001\\frame_"]
    ∧ ((pyMain ["-c", "2"] (sampleHost (2, 93, 0) [⟨"Cam"⟩, ⟨"Cam.001"⟩])).renders.map fun rc =>
        rc.scene.render.use_file_extension) = [true] := by
  refine ⟨fun opts blend_filepath cam scene => ?_, by decide, by decide, by decide⟩
  rw [render_with_camera_eq]
  exact ⟨rfl, rfl, rfl⟩

/-- C3 counterexample: `-s 0` supplies a frame-start bound, yet because
`main` tests `if args.frame_start or args.frame_end:` and `if
args.frame_start:` with Python truthiness, the falsy value `0` is treated as
if the bound were unsupplied: the scene keeps its stored `frame_start = 5`
(the claim requires the supplied `0` to be written and `use_all_frames` to
become false). -/
theorem frame_bound_zero_counterexample :
    ((pyMain ["-s", "0", "-c", "1"] (sampleHost (2, 93, 0) [⟨"Cam"⟩])).renders.map fun rc =>
        rc.scene.frame_start) = [5]
    ∧ (pyMain ["-s", "0", "-c", "1"] (sampleHost (2, 93, 0) [⟨"Cam"⟩])).scene.frame_start = 5
    ∧ resolve_frame_options (some 0) none {} = ({} : Options)
    ∧ ((5 : Int) = 0 → False) := by
  decide

/-- C3 amended: a bound supplied with a nonzero value makes `use_all_frames`
false and is written to the scene; a bound that is unsupplied — or supplied
as the truthiness-falsy value `0` — is left untouched; if neither bound is
supplied with a nonzero value the options are untouched entirely
(`use_all_frames` stays true) and the scene's frame range is preserved.
With `-s 10` only, `frame_start` becomes `10` and `frame_end` keeps the
scene file's value. -/
theorem frame_bounds_amended :
    (∀ (fs fe : Option Int) (o : Options), (pyTruthy fs || pyTruthy fe) = false →
      resolve_frame_options fs fe o = o)
    ∧ (∀ (fs fe : Option Int) (o : Options), (pyTruthy fs || pyTruthy fe) = true →
      (resolve_frame_options fs fe o).AllFrames = false
      ∧ (pyTruthy fs = true → (resolve_frame_options fs fe o).FrameStart = fs)
      ∧ (pyTruthy fs = false → (resolve_frame_options fs fe o).FrameStart = o.FrameStart)
      ∧ (pyTruthy fe = true → (resolve_frame_options fs fe o).FrameEnd = fe)
      ∧ (pyTruthy fe = false → (resolve_frame_options fs fe o).FrameEnd = o.FrameEnd))
    ∧ (∀ (opts : Options) (b : String) (cam : Camera) (scene : Scene),
      opts.AllFrames = true →
        (render_with_camera opts b cam scene).1.frame_start = scene.frame_start
        ∧ (render_with_camera opts b cam scene).1.frame_end = scene.frame_end)
    ∧ (∀ (opts : Options) (b : String) (cam : Camera) (scene : Scene),
      opts.AllFrames = false →
        (render_with_camera opts b cam scene).1.frame_start =
          (if pyTruthy opts.FrameStart then opts.FrameStart.getD 0 else scene.frame_start)
        ∧ (render_with_camera opts b cam scene).1.frame_end =
          (if pyTruthy opts.FrameEnd then opts.FrameEnd.getD 0 else scene.frame_end))
    ∧ ((pyMain ["-s", "10", "-c", "1"] (sampleHost (2, 93, 0) [⟨"Cam"⟩])).renders.map fun rc =>
        (rc.scene.frame_start, rc.scene.frame_end)) = [(10, 9)] := by
  refine ⟨?_, ?_, ?_, ?_, by decide⟩
  · intro fs fe o h
    simp [resolve_frame_options, h]
  · intro fs fe o h
    cases hfs : pyTruthy fs <;> cases hfe : pyTruthy fe <;>
      simp_all [resolve_frame_options]
  · intro opts b cam scene h
    rw [render_with_camera_eq]
    simp [h]
  · intro opts b cam scene h
    rw [render_with_camera_eq]
    simp [h]

/-- Witness for `frame_bounds_amended` at concrete inputs: `-s 0` leaves the
options untouched; `-s 10` clears `AllFrames`, stores `10` and keeps the
end bound; a default-options render leaves `sampleScene`'s frame range
alone. -/
theorem frame_bounds_amended_witness :
    resolve_frame_options (some 0) none {} = ({} : Options)
    ∧ (resolve_frame_options (some 10) none {}).AllFrames = false
    ∧ (resolve_frame_options (some 10) none {}).FrameStart = some 10
    ∧ (resolve_frame_options (some 10) none {}).FrameEnd = ({} : Options).FrameEnd
    ∧ (render_with_camera {} "b.blend" ⟨"Cam"⟩ sampleScene).1.frame_start
        = sampleScene.frame_start
    ∧ (render_with_camera { AllFrames := false, FrameStart := some 10 } "b.blend" ⟨"Cam"⟩
          sampleScene).1.frame_start
        = (if pyTruthy (some (10 : Int)) then (some (10 : Int)).getD 0
           else sampleScene.frame_start) :=
  ⟨frame_bounds_amended.1 (some 0) none {} (by decide),
   (frame_bounds_amended.2.1 (some 10) none {} (by decide)).1,
   (frame_bounds_amended.2.1 (some 10) none {} (by decide)).2.1 (by decide),
   (frame_bounds_amended.2.1 (some 10) none {} (by decide)).2.2.2.2 (by decide),
   (frame_bounds_amended.2.2.1 {} "b.blend" ⟨"Cam"⟩ sampleScene (by decide)).1,
   (frame_bounds_amended.2.2.2.1 { AllFrames := false, FrameStart := some 10 } "b.blend"
      ⟨"Cam"⟩ sampleScene (by decide)).1⟩

/-- C4: with the camera-list argument absent, `main` prints its specific
error message plus the help text and returns cleanly with no render call and
no exception; likewise when some camera-list token is not an integer token
(`int()` raises `ValueError`, which is caught).  A token with embedded
whitespace, such as `"1 2"`, is not an integer token. -/
theorem camera_list_user_errors :
    (∀ (argv : List String) (host : Host) (args : Args),
      parse_args argv = .ok args → argv ≠ [] → args.camera_list_1 = none →
        pyMain argv host =
          { printedHelp := true
            errorMsg := some "Error: --camera-list=\"1,2,5\" argument not given, aborting."
            parseFailed := false, fatal := none, scene := host.scene, renders := [] })
    ∧ (∀ (argv : List String) (host : Host) (args : Args) (s : String),
      parse_args argv = .ok args → argv ≠ [] → args.camera_list_1 = some s → s ≠ "" →
        parse_camera_tokens s = none →
        pyMain argv host =
          { printedHelp := true
            errorMsg :=
              some "Error: --camera-list requires a comma-separated list of integers (no spaces)"
            parseFailed := false, fatal := none, scene := host.scene, renders := [] })
    ∧ python_int "1 2" = none := by
  refine ⟨?_, ?_, by decide⟩
  · intro argv host args hok hne hc
    rw [pyMain_ok_of_ne_nil argv host args hok hne]
    simp [main_with_args, hc]
  · intro argv host args s hok hne hc hs hp
    rw [pyMain_ok_of_ne_nil argv host args hok hne]
    simp [main_with_args, hc, hs, hp]

/-- Witness for `camera_list_user_errors`: `-p` alone (camera list absent)
and `-c x` (non-integer token) both end in the clean error-plus-help path
with no renders. -/
theorem camera_list_user_errors_witness :
    pyMain ["-p"] (sampleHost (2, 93, 0) []) =
      { printedHelp := true
        errorMsg := some "Error: --camera-list=\"1,2,5\" argument not given, aborting."
        parseFailed := false, fatal := none, scene := sampleScene, renders := [] }
    ∧ pyMain ["-c", "x"] (sampleHost (2, 93, 0) []) =
      { printedHelp := true
        errorMsg :=
          some "Error: --camera-list requires a comma-separated list of integers (no spaces)"
        parseFailed := false, fatal := none, scene := sampleScene, renders := [] } :=
  ⟨camera_list_user_errors.1 ["-p"] (sampleHost (2, 93, 0) []) { persistent_data := true }
      rfl (by decide) rfl,
   camera_list_user_errors.2.1 ["-c", "x"] (sampleHost (2, 93, 0) [])
      { camera_list_1 := some "x" } "x" rfl (by decide) rfl (by decide) (by decide)⟩

/-- When `OverwriteSet` is false, no iteration of the render loop writes
`use_overwrite`: the final scene and every recorded render call keep the
value the scene had at loop entry. -/
theorem run_renders_keeps_use_overwrite (opts : Options) (b : String)
    (h : opts.OverwriteSet = false) (cams : List Camera) :
    ∀ scene : Scene,
      (run_renders opts b scene cams).1.render.use_overwrite = scene.render.use_overwrite
      ∧ ∀ rc ∈ (run_renders opts b scene cams).2,
          rc.scene.render.use_overwrite = scene.render.use_overwrite := by
  induction cams with
  | nil => intro scene; exact ⟨rfl, by simp [run_renders]⟩
  | cons cam rest ih =>
    intro scene
    have hstep : (render_with_camera opts b cam scene).1.render.use_overwrite
        = scene.render.use_overwrite := by
      rw [render_with_camera_eq]; simp [h]
    have hcall : (render_with_camera opts b cam scene).2.scene.render.use_overwrite
        = scene.render.use_overwrite := by
      rw [render_with_camera_eq]; simp [h]
    constructor
    · simp only [run_renders]
      rw [(ih _).1, hstep]
    · intro rc hm
      simp only [run_renders, List.mem_cons] at hm
      rcases hm with rfl | hm
      · exact hcall
      · rw [(ih _).2 rc hm, hstep]

/-- C6: with `-o` the render loop sets the scene's overwrite flag to true at
every render call; with `-n` it sets it to false; with neither, no iteration
touches it — the final scene and every render call keep the scene's stored
value. -/
theorem overwrite_policy_applied :
    (∀ (o : Options) (b : String) (cam : Camera) (scene : Scene),
      (render_with_camera (resolve_overwrite true false o) b cam
          scene).2.scene.render.use_overwrite = true)
    ∧ (∀ (o : Options) (b : String) (cam : Camera) (scene : Scene),
      (render_with_camera (resolve_overwrite false true o) b cam
          scene).2.scene.render.use_overwrite = false)
    ∧ (∀ (o : Options) (b : String) (cams : List Camera) (scene : Scene),
      (run_renders (resolve_overwrite false false o) b scene cams).1.render.use_overwrite
          = scene.render.use_overwrite
      ∧ ∀ rc ∈ (run_renders (resolve_overwrite false false o) b scene cams).2,
          rc.scene.render.use_overwrite = scene.render.use_overwrite) := by
  refine ⟨?_, ?_, ?_⟩
  · intro o b cam scene
    rw [render_with_camera_eq]
    simp [resolve_overwrite]
  · intro o b cam scene
    rw [render_with_camera_eq]
    simp [resolve_overwrite]
  · intro o b cams scene
    exact run_renders_keeps_use_overwrite (resolve_overwrite false false o) b
      (by simp [resolve_overwrite]) cams scene

/-- Witness for `overwrite_policy_applied` at concrete inputs, including the
untouched-case membership hypothesis discharged at the single render call of
a one-camera loop. -/
theorem overwrite_policy_applied_witness :
    (render_with_camera (resolve_overwrite true false {}) "s.blend" ⟨"Cam"⟩
        sampleScene).2.scene.render.use_overwrite = true
    ∧ (render_with_camera (resolve_overwrite false true {}) "s.blend" ⟨"Cam"⟩
        sampleScene).2.scene.render.use_overwrite = false
    ∧ ((run_renders (resolve_overwrite false false {}) "s.blend" sampleScene
          [⟨"Cam"⟩]).2.headD ⟨"", sampleScene⟩).scene.render.use_overwrite
        = sampleScene.render.use_overwrite :=
  ⟨overwrite_policy_applied.1 {} "s.blend" ⟨"Cam"⟩ sampleScene,
   overwrite_policy_applied.2.1 {} "s.blend" ⟨"Cam"⟩ sampleScene,
   (overwrite_policy_applied.2.2 {} "s.blend" [⟨"Cam"⟩] sampleScene).2
     ((run_renders (resolve_overwrite false false {}) "s.blend" sampleScene
        [⟨"Cam"⟩]).2.headD ⟨"", sampleScene⟩) (by decide)⟩

/-- C7: a requested 0-based index that is out of range of the enumerated
camera sequence makes `do_render` raise `IndexError` while resolving camera
handles — before any render call is made for that index (indeed before any
render call at all) — and the error propagates as the invocation's fatal
error.  Concretely, camera list `"3"` with only two cameras present ends
with the fatal `IndexError` and an empty render trace. -/
theorem out_of_range_index_fatal :
    (∀ (opts : Options) (b : String) (cams : List Camera) (scene : Scene) (idxs : List Int),
      (∃ i ∈ idxs, pyGet cams i = none) →
        do_render opts b cams scene idxs =
          { scene := scene, renders := []
            fatal := some "IndexError: list index out of range" })
    ∧ pyMain ["-c", "3"] (sampleHost (2, 93, 0) [⟨"Cam"⟩, ⟨"Cam.001"⟩]) =
        { printedHelp := false, errorMsg := none, parseFailed := false
          fatal := some "IndexError: list index out of range"
          scene := sampleScene, renders := [] } :=
  ⟨fun opts b cams scene idxs h => do_render_out_of_range opts b cams scene idxs h,
   by decide⟩

/-- Witness for `out_of_range_index_fatal`: index `2` against a one-camera
list. -/
theorem out_of_range_index_fatal_witness :
    do_render {} "s.blend" [⟨"Cam"⟩] sampleScene [2] =
      { scene := sampleScene, renders := []
        fatal := some "IndexError: list index out of range" } :=
  out_of_range_index_fatal.1 {} "s.blend" [⟨"Cam"⟩] sampleScene [2]
    ⟨2, by decide, by decide⟩

/-- C8 (implicit): if any selected 0-based index is out of range, no render
operation is invoked for any camera at all — the render trace is empty even
when other selected indices are valid — because every index is resolved to a
camera handle before the first render call; the scene is left untouched and
the invocation ends with the fatal `IndexError`. -/
theorem out_of_range_zero_renders :
    ∀ (args : Args) (host : Host) (s : String) (cl : List Int),
      args.camera_list_1 = some s → s ≠ "" → parse_camera_tokens s = some cl →
      (∃ i ∈ normalize_camera_list cl, pyGet host.cameras i = none) →
        (main_with_args args host).renders = []
        ∧ (main_with_args args host).fatal = some "IndexError: list index out of range"
        ∧ (main_with_args args host).scene = host.scene := by
  intro args host s cl hc hs hp h
  simp only [main_with_args, hc, hs, if_neg hs, hp]
  rw [do_render_out_of_range _ _ _ _ _ h]
  exact ⟨rfl, rfl, rfl⟩

/-- Witness for `out_of_range_zero_renders`: camera list `"1,3"` against a
single camera — index `0` is valid, index `2` is not, and still no render at
all happens. -/
theorem out_of_range_zero_renders_witness :
    (main_with_args { camera_list_1 := some "1,3" } (sampleHost (2, 93, 0) [⟨"Cam"⟩])).renders
        = []
    ∧ (main_with_args { camera_list_1 := some "1,3" } (sampleHost (2, 93, 0) [⟨"Cam"⟩])).fatal
        = some "IndexError: list index out of range"
    ∧ (main_with_args { camera_list_1 := some "1,3" } (sampleHost (2, 93, 0) [⟨"Cam"⟩])).scene
        = sampleScene :=
  out_of_range_zero_renders { camera_list_1 := some "1,3" } (sampleHost (2, 93, 0) [⟨"Cam"⟩])
    "1,3" [1, 3] rfl (by decide) (by decide) ⟨2, by decide, by decide⟩

/-- Invariant of the argparse scanner: starting from a namespace in which
`-o` and `-n` are not both recorded, a successful parse never records both —
the mutually exclusive group errors out at the second flag of the pair. -/
theorem parse_args_go_mutex (a : Args) (l : List String) :
    ∀ args : Args, (a.overwrite && a.no_overwrite) = false →
      parse_args_go a l = .ok args → (args.overwrite && args.no_overwrite) = false := by
  induction a, l using parse_args_go.induct with
  | case1 a =>
    intro args ha h
    rw [parse_args_go.eq_def] at h
    cases h
    exact ha
  | case2 a v h1 =>
    intro args ha h
    rw [parse_args_go.eq_def] at h
    simp [h1] at h
  | case3 a v h1 v1 rest2 ih =>
    intro args ha h
    rw [parse_args_go.eq_def] at h
    simp [h1] at h
    exact ih args ha h
  | case4 a v h1 h2 =>
    intro args ha h
    rw [parse_args_go.eq_def] at h
    simp [h1, h2] at h
  | case5 a v h1 h2 v1 rest2 hint =>
    intro args ha h
    rw [parse_args_go.eq_def] at h
    simp [h1, h2, hint] at h
  | case6 a v h1 h2 v1 rest2 k hint ih =>
    intro args ha h
    rw [parse_args_go.eq_def] at h
    simp [h1, h2, hint] at h
    exact ih args ha h
  | case7 a v h1 h2 h3 =>
    intro args ha h
    rw [parse_args_go.eq_def] at h
    simp [h1, h2, h3] at h
  | case8 a v h1 h2 h3 v1 rest2 hint =>
    intro args ha h
    rw [parse_args_go.eq_def] at h
    simp [h1, h2, h3, hint] at h
  | case9 a v h1 h2 h3 v1 rest2 k hint ih =>
    intro args ha h
    rw [parse_args_go.eq_def] at h
    simp [h1, h2, h3, hint] at h
    exact ih args ha h
  | case10 a v rest2 h1 h2 h3 h4 hno =>
    intro args ha h
    rw [parse_args_go.eq_def] at h
    simp [h1, h2, h3, h4, hno] at h
  | case11 a v rest2 h1 h2 h3 h4 hno ih =>
    intro args ha h
    rw [Bool.not_eq_true] at hno
    rw [parse_args_go.eq_def] at h
    simp [h1, h2, h3, h4, hno] at h
    rw [hno] at ih
    exact ih args rfl h
  | case12 a v rest2 h1 h2 h3 h4 h5 hov =>
    intro args ha h
    rw [parse_args_go.eq_def] at h
    simp [h1, h2, h3, h4, h5, hov] at h
  | case13 a v rest2 h1 h2 h3 h4 h5 hov ih =>
    intro args ha h
    rw [Bool.not_eq_true] at hov
    rw [parse_args_go.eq_def] at h
    simp [h1, h2, h3, h4, h5, hov] at h
    rw [hov] at ih
    exact ih args rfl h
  | case14 a v rest2 h1 h2 h3 h4 h5 h6 ih =>
    intro args ha h
    rw [parse_args_go.eq_def] at h
    simp [h1, h2, h3, h4, h5, h6] at h
    exact ih args (by simpa using ha) h
  | case15 a v rest2 h1 h2 h3 h4 h5 h6 =>
    intro args ha h
    rw [parse_args_go.eq_def] at h
    simp [h1, h2, h3, h4, h5, h6] at h

/-- C9: argument parsing never succeeds with both `-o` and `-n` recorded —
the mutually exclusive group rejects the combination — and an argparse
rejection terminates the invocation before any render logic or scene
mutation: no render call is made and the scene is exactly the host's.
Concretely `["-o", "-n"]` is rejected. -/
theorem overwrite_mutually_exclusive :
    (∀ (argv : List String) (args : Args),
      parse_args argv = .ok args → (args.overwrite && args.no_overwrite) = false)
    ∧ (∀ (argv : List String) (host : Host) (e : String),
      parse_args argv = .error e →
        pyMain argv host =
          { printedHelp := false, errorMsg := some e, parseFailed := true, fatal := none
            scene := host.scene, renders := [] })
    ∧ parse_args ["-o", "-n"] =
        .error "argument -n/--no-overwrite: not allowed with argument -o/--overwrite" := by
  refine ⟨?_, ?_, rfl⟩
  · intro argv args h
    exact parse_args_go_mutex {} argv args rfl h
  · intro argv host e h
    simp [pyMain, h]

/-- Witness for `overwrite_mutually_exclusive`: the `["-o", "-n"]`
invocation is rejected at parse time, with no renders and the scene
untouched. -/
theorem overwrite_mutually_exclusive_witness :
    pyMain ["-o", "-n"] (sampleHost (2, 93, 0) [⟨"Cam"⟩]) =
      { printedHelp := false
        errorMsg := some "argument -n/--no-overwrite: not allowed with argument -o/--overwrite"
        parseFailed := true, fatal := none, scene := sampleScene, renders := [] } :=
  overwrite_mutually_exclusive.2.1 ["-o", "-n"] (sampleHost (2, 93, 0) [⟨"Cam"⟩])
    "argument -n/--no-overwrite: not allowed with argument -o/--overwrite" rfl

end BatchRender
